import Mathlib

/-!
Shallow embedding of the in-memory TTL cache layer of tyagnii/ecom_test
(`cache/cache.go` and `cache/cached_repository.go`), together with proofs
about the claims of the specification.

Modelling conventions:
* Go strings are byte sequences (`List Nat`); `string(rune(id))` is modelled
  including int32 wrap-around and the U+FFFD replacement for invalid runes,
  followed by UTF-8 encoding, exactly as in Go.
* `time.Time` and `time.Duration` are `Int` nanoseconds; `time.Now()` becomes
  an explicit `now : Int` argument threaded to each operation.
* The `interface{}` values stored in the cache are a sum type `CacheValue`;
  a Go type assertion is a constructor match.
* The backing `db.Repository` (SQL, out of scope of the spec) is an abstract
  record of response functions; repository methods additionally report
  whether the backing store was called.
-/

set_option autoImplicit false

namespace EcomCache

/-- A Go string, as its byte sequence. -/
abbrev GoStr := List Nat

/-- Bytes of an ASCII string literal. -/
def strBytes (s : String) : GoStr := s.toList.map Char.toNat

/-- Go conversion `rune(id)` from `int` (64-bit) to `int32`: two's-complement
wrap-around. -/
def int32wrap (n : Int) : Int := (n + 2147483648) % 4294967296 - 2147483648

/-- Whether an int32 value is a valid Unicode scalar value (Go: a valid rune
for string conversion): in `[0, 0x10FFFF]` and not a surrogate. -/
def isValidRune (r : Int) : Bool :=
  decide (0 ≤ r) && decide (r ≤ 1114111) &&
    !(decide (55296 ≤ r) && decide (r ≤ 57343))

/-- Standard UTF-8 encoding of a Unicode scalar value. -/
def utf8Encode (c : Nat) : GoStr :=
  if c < 128 then [c]
  else if c < 2048 then [192 + c / 64, 128 + c % 64]
  else if c < 65536 then [224 + c / 4096, 128 + c / 64 % 64, 128 + c % 64]
  else [240 + c / 262144, 128 + c / 4096 % 64, 128 + c / 64 % 64, 128 + c % 64]

/-- UTF-8 decoding of a single encoded scalar (inverse of `utf8Encode` on
valid inputs); used only to prove injectivity. -/
def utf8Dec (l : GoStr) : Nat :=
  match l with
  | [a] => a
  | [a, b] => (a - 192) * 64 + (b - 128)
  | [a, b, c] => (a - 224) * 4096 + (b - 128) * 64 + (c - 128)
  | [a, b, c, d] => (a - 240) * 262144 + (b - 128) * 4096 + (c - 128) * 64 + (d - 128)
  | _ => 0

/-- Go `string(rune(id))`: wrap to int32, then UTF-8 of the rune if it is a
valid scalar value, else UTF-8 of U+FFFD (the replacement character). -/
def goRuneStr (id : Int) : GoStr :=
  let r := int32wrap id
  if isValidRune r then utf8Encode r.toNat else utf8Encode 65533

/-! Domain payload types (`dto.Banner`, `dto.Click`, `db.ClickStats`,
`db.BannerWithStats`, `db.BannerClickCount`). `time.Time` fields are `Int`. -/

structure Banner where
  ID : Int
  Name : String
  CreatedAt : Int
  UpdatedAt : Int
deriving DecidableEq

structure Click where
  ID : Int
  Timestamp : Int
  BannerID : Int
  CreatedAt : Int
deriving DecidableEq

structure ClickStats where
  BannerID : Int
  TotalClicks : Int
  FirstClick : Int
  LastClick : Int
deriving DecidableEq

structure BannerWithStats where
  banner : Banner
  ClickCount : Int
  LastClick : Option Int
deriving DecidableEq

structure BannerClickCount where
  BannerID : Int
  BannerName : String
  ClickCount : Int
deriving DecidableEq

/-- The `interface{}` payloads the cache actually stores. -/
inductive CacheValue where
  | banner (b : Banner)
  | clickStats (s : ClickStats)
  | bannerWithStats (s : BannerWithStats)
  | topBanners (l : List BannerClickCount)
deriving DecidableEq

/-- `CacheItem`: a value and an absolute expiration instant. -/
structure CacheItem where
  value : CacheValue
  expiresAt : Int
deriving DecidableEq

/-- `CacheItem.IsExpired`: `time.Now().After(item.ExpiresAt)`, i.e. strictly
after the expiration instant. -/
def CacheItem.IsExpired (item : CacheItem) (now : Int) : Bool :=
  decide (now > item.expiresAt)

/-- Lookup in the entry table (Go `item, exists := c.items[key]`). -/
def lookupKey : List (GoStr × CacheItem) → GoStr → Option CacheItem
  | [], _ => none
  | (k0, v) :: rest, k => if k0 = k then some v else lookupKey rest k

/-- Removal from the entry table (Go `delete(c.items, key)`). -/
def eraseKey : List (GoStr × CacheItem) → GoStr → List (GoStr × CacheItem)
  | [], _ => []
  | (k0, v) :: rest, k =>
    if k0 = k then eraseKey rest k else (k0, v) :: eraseKey rest k

/-- Map assignment (Go `c.items[key] = item`): overwrites any entry for `k`. -/
def insertKey (m : List (GoStr × CacheItem)) (k : GoStr) (v : CacheItem) :
    List (GoStr × CacheItem) :=
  (k, v) :: eraseKey m k

/-- `InMemoryCache`: the entry table plus the five cumulative counters of
`CacheStats` (size is derived). -/
structure InMemoryCache where
  items : List (GoStr × CacheItem)
  hits : Int
  misses : Int
  sets : Int
  deletes : Int
  expirations : Int
deriving DecidableEq

/-- `CacheStats` snapshot structure. -/
structure CacheStats where
  Hits : Int
  Misses : Int
  Sets : Int
  Deletes : Int
  Expirations : Int
  Size : Int
deriving DecidableEq

/-- `NewInMemoryCache`: empty table, zero counters. -/
def NewInMemoryCache : InMemoryCache :=
  { items := [], hits := 0, misses := 0, sets := 0, deletes := 0, expirations := 0 }

/-- `InMemoryCache.get` (cache.go lines 113-138): miss on absent key; expired
entry is removed and counted as expiration + miss; otherwise hit. -/
def InMemoryCache.get (c : InMemoryCache) (key : GoStr) (now : Int) :
    Option CacheValue × InMemoryCache :=
  match lookupKey c.items key with
  | none => (none, { c with misses := c.misses + 1 })
  | some item =>
    if item.IsExpired now then
      (none, { c with items := eraseKey c.items key,
                      expirations := c.expirations + 1,
                      misses := c.misses + 1 })
    else
      (some item.value, { c with hits := c.hits + 1 })

/-- `InMemoryCache.set` (cache.go lines 140-150): store with
`ExpiresAt = now + ttl`, increment the set counter. -/
def InMemoryCache.set (c : InMemoryCache) (key : GoStr) (value : CacheValue)
    (ttl now : Int) : InMemoryCache :=
  { c with items := insertKey c.items key { value := value, expiresAt := now + ttl },
           sets := c.sets + 1 }

/-- `InMemoryCache.delete` (cache.go lines 152-161): remove if present;
increment the delete counter only then. -/
def InMemoryCache.delete (c : InMemoryCache) (key : GoStr) : InMemoryCache :=
  match lookupKey c.items key with
  | some _ => { c with items := eraseKey c.items key, deletes := c.deletes + 1 }
  | none => c

/-! Key construction, exactly as in the source:
`"banner:" + string(rune(id))` and so on. -/

def bannerKey (id : Int) : GoStr := strBytes "banner:" ++ goRuneStr id

def clickStatsKey (id : Int) : GoStr := strBytes "click_stats:" ++ goRuneStr id

def bannerStatsKey (id : Int) : GoStr := strBytes "banner_stats:" ++ goRuneStr id

def topBannersKey (limit : Int) : GoStr := strBytes "top_banners:" ++ goRuneStr limit

/-- The condition of the loop body of `InvalidateTopBanners`:
`len(key) > 11 && key[:11] == "top_banners:"` (byte-level). -/
def isTopBannersKey (key : GoStr) : Bool :=
  decide (key.length > 11) && decide (key.take 11 = strBytes "top_banners:")

/-! Typed facade operations. A failing Go type assertion returns
`(zero value, false)`, modelled as `none`. -/

def InMemoryCache.GetBanner (c : InMemoryCache) (id : Int) (now : Int) :
    Option Banner × InMemoryCache :=
  match c.get (bannerKey id) now with
  | (none, c') => (none, c')
  | (some v, c') =>
    match v with
    | .banner b => (some b, c')
    | _ => (none, c')

def InMemoryCache.SetBanner (c : InMemoryCache) (b : Banner) (ttl now : Int) :
    InMemoryCache :=
  c.set (bannerKey b.ID) (.banner b) ttl now

def InMemoryCache.DeleteBanner (c : InMemoryCache) (id : Int) : InMemoryCache :=
  c.delete (bannerKey id)

def InMemoryCache.GetClickStats (c : InMemoryCache) (bannerID : Int) (now : Int) :
    Option ClickStats × InMemoryCache :=
  match c.get (clickStatsKey bannerID) now with
  | (none, c') => (none, c')
  | (some v, c') =>
    match v with
    | .clickStats s => (some s, c')
    | _ => (none, c')

def InMemoryCache.SetClickStats (c : InMemoryCache) (bannerID : Int)
    (s : ClickStats) (ttl now : Int) : InMemoryCache :=
  c.set (clickStatsKey bannerID) (.clickStats s) ttl now

def InMemoryCache.InvalidateClickStats (c : InMemoryCache) (bannerID : Int) :
    InMemoryCache :=
  c.delete (clickStatsKey bannerID)

def InMemoryCache.GetBannerWithStats (c : InMemoryCache) (id : Int) (now : Int) :
    Option BannerWithStats × InMemoryCache :=
  match c.get (bannerStatsKey id) now with
  | (none, c') => (none, c')
  | (some v, c') =>
    match v with
    | .bannerWithStats s => (some s, c')
    | _ => (none, c')

def InMemoryCache.SetBannerWithStats (c : InMemoryCache) (id : Int)
    (s : BannerWithStats) (ttl now : Int) : InMemoryCache :=
  c.set (bannerStatsKey id) (.bannerWithStats s) ttl now

def InMemoryCache.InvalidateBannerWithStats (c : InMemoryCache) (id : Int) :
    InMemoryCache :=
  c.delete (bannerStatsKey id)

def InMemoryCache.GetTopBanners (c : InMemoryCache) (limit : Int) (now : Int) :
    Option (List BannerClickCount) × InMemoryCache :=
  match c.get (topBannersKey limit) now with
  | (none, c') => (none, c')
  | (some v, c') =>
    match v with
    | .topBanners l => (some l, c')
    | _ => (none, c')

def InMemoryCache.SetTopBanners (c : InMemoryCache) (limit : Int)
    (banners : List BannerClickCount) (ttl now : Int) : InMemoryCache :=
  c.set (topBannersKey limit) (.topBanners banners) ttl now

/-- `InvalidateTopBanners` (cache.go lines 266-277): scan all keys, delete
those whose first 11 bytes equal the 12-byte literal `"top_banners:"`,
incrementing the delete counter per removal. -/
def InMemoryCache.InvalidateTopBanners (c : InMemoryCache) : InMemoryCache :=
  { c with items := c.items.filter fun p => ! isTopBannersKey p.1,
           deletes := c.deletes + (c.items.filter fun p => isTopBannersKey p.1).length }

/-- `InvalidateBanner` (cache.go lines 189-194): the full cascade. -/
def InMemoryCache.InvalidateBanner (c : InMemoryCache) (id : Int) : InMemoryCache :=
  (((c.DeleteBanner id).InvalidateClickStats id).InvalidateBannerWithStats
    id).InvalidateTopBanners

/-- `Clear` (cache.go lines 282-287): new empty table; counters untouched. -/
def InMemoryCache.Clear (c : InMemoryCache) : InMemoryCache :=
  { c with items := [] }

/-- `Size` (cache.go lines 290-294). -/
def InMemoryCache.Size (c : InMemoryCache) : Int :=
  c.items.length

/-- `Stats` (cache.go lines 297-304): counter snapshot plus current size. -/
def InMemoryCache.Stats (c : InMemoryCache) : CacheStats :=
  { Hits := c.hits, Misses := c.misses, Sets := c.sets, Deletes := c.deletes,
    Expirations := c.expirations, Size := c.items.length }

/-! Default TTLs, in nanoseconds. -/

def DefaultBannerTTL : Int := 300000000000

def DefaultClickStatsTTL : Int := 120000000000

def DefaultBannerStatsTTL : Int := 180000000000

def DefaultTopBannersTTL : Int := 60000000000

/-- A Go `error` value. -/
abbrev GoError := String

/-- Abstract backing `db.Repository`: response functions for the calls the
cached repository makes. Write calls return `some err` or `none` (success);
reads return `Except`. -/
structure BackingStore where
  getBannerByID : Int → Except GoError Banner
  createBanner : Banner → Option GoError
  updateBanner : Banner → Option GoError
  deleteBanner : Int → Option GoError
  getClickStats : Int → Except GoError ClickStats
  getTopBanners : Int → Except GoError (List BannerClickCount)
  createClick : Click → Option GoError
  getClickByID : Int → Except GoError Click
  deleteClick : Int → Option GoError

namespace CachedRepository

/-- `CreateBanner` (cached_repository.go lines 28-41): backing write first; on
success cache the banner and invalidate the top-banners family. -/
def CreateBanner (repo : BackingStore) (c : InMemoryCache) (b : Banner)
    (now : Int) : Option GoError × InMemoryCache :=
  match repo.createBanner b with
  | some e => (some e, c)
  | none => (none, (c.SetBanner b DefaultBannerTTL now).InvalidateTopBanners)

/-- `GetBannerByID` (cached_repository.go lines 44-60): read-through. The
third component reports whether the backing store was called. -/
def GetBannerByID (repo : BackingStore) (c : InMemoryCache) (id : Int)
    (now : Int) : Except GoError Banner × InMemoryCache × Bool :=
  match c.GetBanner id now with
  | (some b, c') => (.ok b, c', false)
  | (none, c') =>
    match repo.getBannerByID id with
    | .error e => (.error e, c', true)
    | .ok b => (.ok b, c'.SetBanner b DefaultBannerTTL now, true)

/-- `UpdateBanner` (cached_repository.go lines 68-81): backing write; on
success `SetBanner` then `InvalidateBanner` (which deletes the banner entry
just written). -/
def UpdateBanner (repo : BackingStore) (c : InMemoryCache) (b : Banner)
    (now : Int) : Option GoError × InMemoryCache :=
  match repo.updateBanner b with
  | some e => (some e, c)
  | none => (none, (c.SetBanner b DefaultBannerTTL now).InvalidateBanner b.ID)

/-- `DeleteBanner` (cached_repository.go lines 84-94). -/
def DeleteBanner (repo : BackingStore) (c : InMemoryCache) (id : Int) :
    Option GoError × InMemoryCache :=
  match repo.deleteBanner id with
  | some e => (some e, c)
  | none => (none, c.InvalidateBanner id)

/-- `CreateClick` (cached_repository.go lines 116-128): backing write; on
success invalidate click-stats, banner-with-stats and top-banners for the
owning banner; the banner entry itself is not touched. -/
def CreateClick (repo : BackingStore) (c : InMemoryCache) (click : Click) :
    Option GoError × InMemoryCache :=
  match repo.createClick click with
  | some e => (some e, c)
  | none =>
    (none, ((c.InvalidateClickStats click.BannerID).InvalidateBannerWithStats
      click.BannerID).InvalidateTopBanners)

/-- `DeleteClick` (cached_repository.go lines 156-174): resolve the owning
banner from the backing store, delete, then the same cascade as
`CreateClick`. -/
def DeleteClick (repo : BackingStore) (c : InMemoryCache) (id : Int) :
    Option GoError × InMemoryCache :=
  match repo.getClickByID id with
  | .error e => (some e, c)
  | .ok click =>
    match repo.deleteClick id with
    | some e => (some e, c)
    | none =>
      (none, ((c.InvalidateClickStats click.BannerID).InvalidateBannerWithStats
        click.BannerID).InvalidateTopBanners)

/-- `GetClickStats` (cached_repository.go lines 177-193): read-through. -/
def GetClickStats (repo : BackingStore) (c : InMemoryCache) (bannerID : Int)
    (now : Int) : Except GoError ClickStats × InMemoryCache × Bool :=
  match c.GetClickStats bannerID now with
  | (some s, c') => (.ok s, c', false)
  | (none, c') =>
    match repo.getClickStats bannerID with
    | .error e => (.error e, c', true)
    | .ok s => (.ok s, c'.SetClickStats bannerID s DefaultClickStatsTTL now, true)

/-- `GetTopBanners` (cached_repository.go lines 196-212): read-through. -/
def GetTopBanners (repo : BackingStore) (c : InMemoryCache) (limit : Int)
    (now : Int) : Except GoError (List BannerClickCount) × InMemoryCache × Bool :=
  match c.GetTopBanners limit now with
  | (some l, c') => (.ok l, c', false)
  | (none, c') =>
    match repo.getTopBanners limit with
    | .error e => (.error e, c', true)
    | .ok l => (.ok l, c'.SetTopBanners limit l DefaultTopBannersTTL now, true)

end CachedRepository

/-! Concrete fixtures used by closed theorems and witnesses. -/

/-- A backing store on which every call succeeds. -/
def okRepo : BackingStore where
  getBannerByID := fun id => .ok { ID := id, Name := "banner", CreatedAt := 0, UpdatedAt := 0 }
  createBanner := fun _ => none
  updateBanner := fun _ => none
  deleteBanner := fun _ => none
  getClickStats := fun id => .ok { BannerID := id, TotalClicks := 0, FirstClick := 0, LastClick := 0 }
  getTopBanners := fun _ => .ok []
  createClick := fun _ => none
  getClickByID := fun id => .ok { ID := id, Timestamp := 0, BannerID := 1, CreatedAt := 0 }
  deleteClick := fun _ => none

/-- A backing store on which every write fails (lookup of a click still
succeeds, so the failure point of `DeleteClick` is the write itself). -/
def errRepo : BackingStore where
  getBannerByID := fun _ => .error "db down"
  createBanner := fun _ => some "db down"
  updateBanner := fun _ => some "db down"
  deleteBanner := fun _ => some "db down"
  getClickStats := fun _ => .error "db down"
  getTopBanners := fun _ => .error "db down"
  createClick := fun _ => some "db down"
  getClickByID := fun id => .ok { ID := id, Timestamp := 0, BannerID := 1, CreatedAt := 0 }
  deleteClick := fun _ => some "db down"

def banner3 : Banner := { ID := 3, Name := "b3", CreatedAt := 0, UpdatedAt := 0 }

def banner7 : Banner := { ID := 7, Name := "b7new", CreatedAt := 0, UpdatedAt := 0 }

def topEntry : BannerClickCount := { BannerID := 1, BannerName := "b1", ClickCount := 5 }

def click3 : Click := { ID := 11, Timestamp := 0, BannerID := 3, CreatedAt := 0 }

def sampleStats : ClickStats := { BannerID := 1, TotalClicks := 2, FirstClick := 0, LastClick := 0 }

def oldBanner7 : Banner := { ID := 7, Name := "b7old", CreatedAt := 0, UpdatedAt := 0 }

def surrogateBanner : Banner := { ID := 55296, Name := "s", CreatedAt := 0, UpdatedAt := 0 }

def okBanner1 : Banner := { ID := 1, Name := "banner", CreatedAt := 0, UpdatedAt := 0 }

/-- An unexpired cache item of the wrong dynamic type for a banner key. -/
def badItem : CacheItem := { value := .clickStats sampleStats, expiresAt := 100 }

/-- A cache holding, under the banner key for id 1, an unexpired value of the
wrong dynamic type (click statistics instead of a banner). -/
def badTypeCache : InMemoryCache :=
  { items := [(bannerKey 1, badItem)],
    hits := 0, misses := 0, sets := 0, deletes := 0, expirations := 0 }

/-- A cache item whose expiration instant is 5. -/
def expiredItem : CacheItem := { value := .banner banner3, expiresAt := 5 }

/-- A cache holding one entry for key `[1]` expiring at instant 5. -/
def expiredCache : InMemoryCache :=
  { items := [([1], expiredItem)],
    hits := 0, misses := 0, sets := 0, deletes := 0, expirations := 0 }

/-- Cache state of the C7 scenario: banner 3 and the ranked list for limit 10
are cached at instant 0. -/
def c7start : InMemoryCache :=
  (NewInMemoryCache.SetBanner banner3 DefaultBannerTTL 0).SetTopBanners 10
    [topEntry] DefaultTopBannersTTL 0

/-! Helper lemmas about the entry table. -/

theorem lookupKey_eraseKey_self (m : List (GoStr × CacheItem)) (k : GoStr) :
    lookupKey (eraseKey m k) k = none := by
  induction m with
  | nil => rfl
  | cons p rest ih =>
    obtain ⟨k0, v⟩ := p
    by_cases h : k0 = k
    · simpa [eraseKey, h] using ih
    · simpa [eraseKey, lookupKey, h] using ih

theorem lookupKey_insertKey_self (m : List (GoStr × CacheItem)) (k : GoStr)
    (v : CacheItem) : lookupKey (insertKey m k v) k = some v := by
  simp [insertKey, lookupKey]

/-- The loop condition of `InvalidateTopBanners` never holds: it compares the
first 11 bytes of a key with a 12-byte literal. -/
theorem isTopBannersKey_eq_false (k : GoStr) : isTopBannersKey k = false := by
  have hlen : (strBytes "top_banners:").length = 12 := rfl
  have hne : k.take 11 ≠ strBytes "top_banners:" := by
    intro h
    have := congrArg List.length h
    rw [hlen, List.length_take] at this
    omega
  simp [isTopBannersKey, hne]

/-- Consequently `InvalidateTopBanners` removes nothing and changes no
counter: it is the identity on the cache state. -/
theorem invalidateTopBanners_eq_id (c : InMemoryCache) :
    c.InvalidateTopBanners = c := by
  simp [InMemoryCache.InvalidateTopBanners, isTopBannersKey_eq_false]

/-! Helper lemmas about key construction. -/

theorem utf8Dec_utf8Encode {x : Nat} (hx : x ≤ 1114111) :
    utf8Dec (utf8Encode x) = x := by
  unfold utf8Encode
  split
  · rfl
  · split
    · show (192 + x / 64 - 192) * 64 + (128 + x % 64 - 128) = x
      omega
    · split
      · show (224 + x / 4096 - 224) * 4096 + (128 + x / 64 % 64 - 128) * 64 +
          (128 + x % 64 - 128) = x
        omega
      · show (240 + x / 262144 - 240) * 262144 + (128 + x / 4096 % 64 - 128) * 4096 +
          (128 + x / 64 % 64 - 128) * 64 + (128 + x % 64 - 128) = x
        omega

theorem utf8Encode_injOn {x y : Nat} (hx : x ≤ 1114111) (hy : y ≤ 1114111)
    (h : utf8Encode x = utf8Encode y) : x = y := by
  have h1 := utf8Dec_utf8Encode hx
  have h2 := utf8Dec_utf8Encode hy
  rw [h] at h1
  omega

theorem int32wrap_of_small {n : Int} (h0 : 0 ≤ n) (h1 : n ≤ 1114111) :
    int32wrap n = n := by
  unfold int32wrap
  omega

theorem isValidRune_bounds {r : Int} (h : isValidRune r = true) :
    0 ≤ r ∧ r ≤ 1114111 := by
  simp only [isValidRune, Bool.and_eq_true, decide_eq_true_eq] at h
  exact ⟨h.1.1, h.1.2⟩

theorem goRuneStr_of_valid {id : Int} (h : isValidRune id = true) :
    goRuneStr id = utf8Encode id.toNat := by
  obtain ⟨h0, h1⟩ := isValidRune_bounds h
  have hw : int32wrap id = id := int32wrap_of_small h0 h1
  simp only [goRuneStr, hw, h, if_true]

theorem goRuneStr_injOn {x y : Int} (hx : isValidRune x = true)
    (hy : isValidRune y = true) (h : goRuneStr x = goRuneStr y) : x = y := by
  rw [goRuneStr_of_valid hx, goRuneStr_of_valid hy] at h
  obtain ⟨hx0, hx1⟩ := isValidRune_bounds hx
  obtain ⟨hy0, hy1⟩ := isValidRune_bounds hy
  have := utf8Encode_injOn (by omega) (by omega) h
  omega

/-! The four namespaces never collide with each other: any two keys from
different namespaces differ within the first seven bytes, which come from the
fixed literals. -/

theorem bannerKey_ne_clickStatsKey (a b : Int) : bannerKey a ≠ clickStatsKey b := by
  intro h
  have e1 : (bannerKey a).take 7 = strBytes "banner:" := rfl
  have e2 : (clickStatsKey b).take 7 = strBytes "click_s" := rfl
  rw [h, e2] at e1
  exact absurd e1 (by decide)

theorem bannerKey_ne_bannerStatsKey (a b : Int) : bannerKey a ≠ bannerStatsKey b := by
  intro h
  have e1 : (bannerKey a).take 7 = strBytes "banner:" := rfl
  have e2 : (bannerStatsKey b).take 7 = strBytes "banner_" := rfl
  rw [h, e2] at e1
  exact absurd e1 (by decide)

theorem bannerKey_ne_topBannersKey (a b : Int) : bannerKey a ≠ topBannersKey b := by
  intro h
  have e1 : (bannerKey a).take 7 = strBytes "banner:" := rfl
  have e2 : (topBannersKey b).take 7 = strBytes "top_ban" := rfl
  rw [h, e2] at e1
  exact absurd e1 (by decide)

theorem clickStatsKey_ne_bannerStatsKey (a b : Int) :
    clickStatsKey a ≠ bannerStatsKey b := by
  intro h
  have e1 : (clickStatsKey a).take 7 = strBytes "click_s" := rfl
  have e2 : (bannerStatsKey b).take 7 = strBytes "banner_" := rfl
  rw [h, e2] at e1
  exact absurd e1 (by decide)

theorem clickStatsKey_ne_topBannersKey (a b : Int) :
    clickStatsKey a ≠ topBannersKey b := by
  intro h
  have e1 : (clickStatsKey a).take 7 = strBytes "click_s" := rfl
  have e2 : (topBannersKey b).take 7 = strBytes "top_ban" := rfl
  rw [h, e2] at e1
  exact absurd e1 (by decide)

theorem bannerStatsKey_ne_topBannersKey (a b : Int) :
    bannerStatsKey a ≠ topBannersKey b := by
  intro h
  have e1 : (bannerStatsKey a).take 7 = strBytes "banner_" := rfl
  have e2 : (topBannersKey b).take 7 = strBytes "top_ban" := rfl
  rw [h, e2] at e1
  exact absurd e1 (by decide)

/-- Within a namespace, keys are distinct for distinct ids that are valid
Unicode scalar values. -/
theorem nsKey_injOn (ns : GoStr) {x y : Int} (hx : isValidRune x = true)
    (hy : isValidRune y = true) (h : ns ++ goRuneStr x = ns ++ goRuneStr y) :
    x = y :=
  goRuneStr_injOn hx hy (List.append_cancel_left h)

/-! Claim theorems. -/

/-- Claim C1: invalidating an entity is supposed to evict every cached
ranked-list entry, making a subsequent ranked-list read a cache miss. The
code's `InvalidateTopBanners` compares the first 11 bytes of each key with the
12-byte literal `"top_banners:"`, which never matches, so it removes nothing:
evaluated at the failing input, a ranked list cached for limit 10 survives
`InvalidateBanner 1` and the subsequent `GetTopBanners 10` is answered from
the cache (`dbCalled = false`) instead of hitting the backing store. -/
theorem C1_ranked_list_survives_invalidation :
    (CachedRepository.GetTopBanners okRepo
      ((NewInMemoryCache.SetTopBanners 10 [topEntry] DefaultTopBannersTTL
        0).InvalidateBanner 1) 10 0).1 = Except.ok [topEntry] ∧
    (CachedRepository.GetTopBanners okRepo
      ((NewInMemoryCache.SetTopBanners 10 [topEntry] DefaultTopBannersTTL
        0).InvalidateBanner 1) 10 0).2.2 = false :=
  ⟨rfl, rfl⟩

/-- Claim C2: after a successful `UpdateBanner` the banner cache entry should
hold the updated value (refresh-on-update). The code first refreshes the
entry with `SetBanner` and then calls `InvalidateBanner`, whose cascade
deletes the entry just written: evaluated at the failing input (banner 7 is
cached, then updated), the subsequent `GetBanner 7` is a cache miss. -/
theorem C2_update_then_get_misses :
    (CachedRepository.UpdateBanner okRepo
      (NewInMemoryCache.SetBanner oldBanner7 DefaultBannerTTL 0) banner7 0).1 =
      none ∧
    ((CachedRepository.UpdateBanner okRepo
      (NewInMemoryCache.SetBanner oldBanner7 DefaultBannerTTL 0) banner7
        0).2.GetBanner 7 0).1 = none :=
  ⟨rfl, rfl⟩

/-- Claim C6: after `Clear`, `Size` is 0 and the cumulative hit, miss, set,
delete and expiration counters reported by `Stats` are exactly their values
from before the clear. -/
theorem C6_clear_preserves_counters (c : InMemoryCache) :
    c.Clear.Size = 0 ∧
    c.Clear.Stats.Hits = c.Stats.Hits ∧
    c.Clear.Stats.Misses = c.Stats.Misses ∧
    c.Clear.Stats.Sets = c.Stats.Sets ∧
    c.Clear.Stats.Deletes = c.Stats.Deletes ∧
    c.Clear.Stats.Expirations = c.Stats.Expirations :=
  ⟨rfl, rfl, rfl, rfl, rfl, rfl⟩

/-- Claim C7: a successful `CreateClick` leaves the owner's banner entry
untouched (a subsequent banner read is served from the cache without a
backing-store call) and is supposed to invalidate the whole ranked-list
family. The banner-entry part holds, but because `InvalidateTopBanners` never
matches any key, the cached ranked list for limit 10 survives and the
subsequent `GetTopBanners 10` is a cache hit (`dbCalled = false`) instead of
the claimed miss. -/
theorem C7_click_leaves_ranked_list_cached :
    (CachedRepository.CreateClick okRepo c7start click3).1 = none ∧
    (CachedRepository.GetBannerByID okRepo
      (CachedRepository.CreateClick okRepo c7start click3).2 3 0).1 =
      Except.ok banner3 ∧
    (CachedRepository.GetBannerByID okRepo
      (CachedRepository.CreateClick okRepo c7start click3).2 3 0).2.2 = false ∧
    (CachedRepository.GetTopBanners okRepo
      (CachedRepository.CreateClick okRepo c7start click3).2 10 0).1 =
      Except.ok [topEntry] ∧
    (CachedRepository.GetTopBanners okRepo
      (CachedRepository.CreateClick okRepo c7start click3).2 10 0).2.2 = false :=
  ⟨rfl, rfl, rfl, rfl, rfl⟩

/-- Claim C3 (counterexample): the ids 55296 and 55297 are distinct, yet their
banner cache keys coincide — Go converts both to the replacement character
U+FFFD because they are surrogate code points — so a banner set for id 55296
is observed by a get for id 55297. -/
theorem C3_counterexample_surrogate_ids :
    (55296 : Int) ≠ 55297 ∧ bannerKey 55296 = bannerKey 55297 ∧
    ((NewInMemoryCache.SetBanner surrogateBanner DefaultBannerTTL 0).GetBanner
      55297 0).1 = some surrogateBanner :=
  ⟨by decide, rfl, rfl⟩

/-- Claim C3 (amended): within each namespace, keys are distinct for distinct
ids that are valid Unicode scalar values (between 0 and 0x10FFFF and not
surrogates) — ids outside that range can collide — and a key of one namespace
never equals a key of another namespace, for all ids. -/
theorem C3_key_distinctness (x y : Int) (hx : isValidRune x = true)
    (hy : isValidRune y = true) (hxy : x ≠ y) :
    (bannerKey x ≠ bannerKey y ∧ clickStatsKey x ≠ clickStatsKey y ∧
     bannerStatsKey x ≠ bannerStatsKey y ∧ topBannersKey x ≠ topBannersKey y) ∧
    (∀ a b : Int, bannerKey a ≠ clickStatsKey b ∧
      bannerKey a ≠ bannerStatsKey b ∧ bannerKey a ≠ topBannersKey b ∧
      clickStatsKey a ≠ bannerStatsKey b ∧ clickStatsKey a ≠ topBannersKey b ∧
      bannerStatsKey a ≠ topBannersKey b) := by
  refine ⟨⟨?_, ?_, ?_, ?_⟩,
    fun a b => ⟨bannerKey_ne_clickStatsKey a b, bannerKey_ne_bannerStatsKey a b,
      bannerKey_ne_topBannersKey a b, clickStatsKey_ne_bannerStatsKey a b,
      clickStatsKey_ne_topBannersKey a b, bannerStatsKey_ne_topBannersKey a b⟩⟩ <;>
  · intro h
    exact hxy (nsKey_injOn _ hx hy h)

/-- Witness for the amended C3 at the concrete ids 1 and 2. -/
theorem C3_key_distinctness_witness :
    isValidRune 1 = true ∧ isValidRune 2 = true ∧ (1 : Int) ≠ 2 ∧
    bannerKey 1 ≠ bannerKey 2 :=
  ⟨by decide, by decide, by decide,
    (C3_key_distinctness 1 2 (by decide) (by decide) (by decide)).1.1⟩

/-- Claim C4 (counterexample): at exactly the expiration instant the value is
still returned. A value set at instant 0 with TTL 10 is retrieved by a get at
instant 10, although 10 is not strictly before 0 + 10; the claim says this
get must be a miss. -/
theorem C4_counterexample_exact_instant :
    ¬ ((10 : Int) < 0 + 10) ∧
    ((NewInMemoryCache.set [1] (.banner banner3) 10 0).get [1] 10).1 =
      some (.banner banner3) :=
  ⟨by decide, rfl⟩

/-- Claim C4 (amended): after `set k v t` at time `s`, a get at `now` returns
the value whenever `now ≤ s + t` (including the exact expiration instant) and
is a miss whenever `now > s + t`: a value is retrievable if and only if the
current time is not strictly after its expiration instant. -/
theorem C4_set_get_retrievability (c : InMemoryCache) (k : GoStr)
    (v : CacheValue) (t s now : Int) (_ht : 0 < t) :
    (now ≤ s + t → ((c.set k v t s).get k now).1 = some v) ∧
    (s + t < now → ((c.set k v t s).get k now).1 = none) := by
  have hl : lookupKey (c.set k v t s).items k =
      some { value := v, expiresAt := s + t } :=
    lookupKey_insertKey_self c.items k _
  constructor
  · intro h
    simp [InMemoryCache.get, hl, CacheItem.IsExpired, show ¬ now > s + t by omega]
  · intro h
    simp [InMemoryCache.get, hl, CacheItem.IsExpired, h]

/-- Witness for the amended C4: TTL 10 at set-time 0; a get at 3 is a hit and
a get at 11 is a miss. -/
theorem C4_set_get_retrievability_witness :
    (0 : Int) < 10 ∧
    ((NewInMemoryCache.set [1] (.banner banner3) 10 0).get [1] 3).1 =
      some (.banner banner3) ∧
    ((NewInMemoryCache.set [1] (.banner banner3) 10 0).get [1] 11).1 = none :=
  ⟨by decide,
    (C4_set_get_retrievability NewInMemoryCache [1] (.banner banner3) 10 0 3
      (by decide)).1 (by decide),
    (C4_set_get_retrievability NewInMemoryCache [1] (.banner banner3) 10 0 11
      (by decide)).2 (by decide)⟩

/-- Claim C5: every write operation of the cached repository propagates a
backing-store error unchanged and leaves the cache state (entries and all
counters) exactly as it was — no population and no invalidation on the error
path. -/
theorem C5_failed_write_leaves_cache_unchanged (repo : BackingStore)
    (c : InMemoryCache) (b : Banner) (cl : Click) (id cid : Int) (now : Int)
    (e1 e2 e3 e4 e5 : GoError) (clk : Click)
    (h1 : repo.createBanner b = some e1)
    (h2 : repo.updateBanner b = some e2)
    (h3 : repo.deleteBanner id = some e3)
    (h4 : repo.createClick cl = some e4)
    (h5 : repo.getClickByID cid = .ok clk)
    (h6 : repo.deleteClick cid = some e5) :
    CachedRepository.CreateBanner repo c b now = (some e1, c) ∧
    CachedRepository.UpdateBanner repo c b now = (some e2, c) ∧
    CachedRepository.DeleteBanner repo c id = (some e3, c) ∧
    CachedRepository.CreateClick repo c cl = (some e4, c) ∧
    CachedRepository.DeleteClick repo c cid = (some e5, c) := by
  refine ⟨?_, ?_, ?_, ?_, ?_⟩ <;>
    simp [CachedRepository.CreateBanner, CachedRepository.UpdateBanner,
      CachedRepository.DeleteBanner, CachedRepository.CreateClick,
      CachedRepository.DeleteClick, h1, h2, h3, h4, h5, h6]

/-- Witness for C5 on the all-errors backing store. -/
theorem C5_failed_write_witness :
    CachedRepository.CreateBanner errRepo badTypeCache banner3 0 =
      (some "db down", badTypeCache) ∧
    CachedRepository.UpdateBanner errRepo badTypeCache banner3 0 =
      (some "db down", badTypeCache) ∧
    CachedRepository.DeleteBanner errRepo badTypeCache 3 =
      (some "db down", badTypeCache) ∧
    CachedRepository.CreateClick errRepo badTypeCache click3 =
      (some "db down", badTypeCache) ∧
    CachedRepository.DeleteClick errRepo badTypeCache 2 =
      (some "db down", badTypeCache) :=
  C5_failed_write_leaves_cache_unchanged errRepo badTypeCache banner3 click3 3 2
    0 "db down" "db down" "db down" "db down" "db down"
    { ID := 2, Timestamp := 0, BannerID := 1, CreatedAt := 0 }
    rfl rfl rfl rfl rfl rfl

/-- Claim C8: a get on an absent key increments only the miss counter; a get
finding an expired entry returns a miss, removes the entry, and increments
the expiration and miss counters by one each; a get on a present unexpired
entry increments only the hit counter and returns the value. -/
theorem C8_get_hit_miss_expiry (c1 c2 c3 : InMemoryCache) (k1 k2 k3 : GoStr)
    (n1 n2 n3 : Int) (it2 it3 : CacheItem)
    (h1 : lookupKey c1.items k1 = none)
    (h2 : lookupKey c2.items k2 = some it2) (h2e : it2.IsExpired n2 = true)
    (h3 : lookupKey c3.items k3 = some it3) (h3e : it3.IsExpired n3 = false) :
    c1.get k1 n1 = (none, { c1 with misses := c1.misses + 1 }) ∧
    c2.get k2 n2 = (none, { c2 with items := eraseKey c2.items k2, expirations := c2.expirations + 1, misses := c2.misses + 1 }) ∧
    c3.get k3 n3 = (some it3.value, { c3 with hits := c3.hits + 1 }) := by
  refine ⟨?_, ?_, ?_⟩
  · simp [InMemoryCache.get, h1]
  · simp [InMemoryCache.get, h2, h2e]
  · simp [InMemoryCache.get, h3, h3e]

/-- Witness for C8: an empty cache (absent key), and a one-entry cache whose
entry expires at instant 5, read at instants 6 (expired) and 5 (still a hit
at the exact instant). -/
theorem C8_get_hit_miss_expiry_witness :
    NewInMemoryCache.get [1] 0 =
      (none, { NewInMemoryCache with misses := NewInMemoryCache.misses + 1 }) ∧
    expiredCache.get [1] 6 =
      (none, { expiredCache with items := eraseKey expiredCache.items [1], expirations := expiredCache.expirations + 1, misses := expiredCache.misses + 1 }) ∧
    expiredCache.get [1] 5 =
      (some expiredItem.value, { expiredCache with hits := expiredCache.hits + 1 }) :=
  C8_get_hit_miss_expiry NewInMemoryCache expiredCache expiredCache [1] [1] [1]
    0 6 5 expiredItem expiredItem rfl rfl (by decide) rfl (by decide)

/-- Claim C9: `delete` is idempotent — a second delete of the same key leaves
the state of the first delete unchanged — the delete counter is incremented
exactly when the key was present, and deleting an absent key changes nothing
at all. -/
theorem C9_delete_idempotent (c : InMemoryCache) (k : GoStr) :
    (c.delete k).delete k = c.delete k ∧
    ((lookupKey c.items k).isSome → (c.delete k).deletes = c.deletes + 1) ∧
    (lookupKey c.items k = none → c.delete k = c) := by
  refine ⟨?_, ?_, ?_⟩
  · cases hl : lookupKey c.items k with
    | none =>
      have h1 : c.delete k = c := by simp [InMemoryCache.delete, hl]
      rw [h1]
      exact h1
    | some it =>
      have h1 : c.delete k =
          { c with items := eraseKey c.items k, deletes := c.deletes + 1 } := by
        simp [InMemoryCache.delete, hl]
      rw [h1]
      simp [InMemoryCache.delete, lookupKey_eraseKey_self]
  · intro hs
    obtain ⟨it, hl⟩ := Option.isSome_iff_exists.mp hs
    simp [InMemoryCache.delete, hl]
  · intro hl
    simp [InMemoryCache.delete, hl]

/-- Witness for C9: the delete counter moves on deleting the present key `[1]`
of the one-entry cache, and deleting from an empty cache is the identity. -/
theorem C9_delete_idempotent_witness :
    (lookupKey expiredCache.items [1]).isSome = true ∧
    (expiredCache.delete [1]).deletes = expiredCache.deletes + 1 ∧
    lookupKey NewInMemoryCache.items [1] = none ∧
    NewInMemoryCache.delete [1] = NewInMemoryCache :=
  ⟨by decide, (C9_delete_idempotent expiredCache [1]).2.1 (by decide), rfl,
    (C9_delete_idempotent NewInMemoryCache [1]).2.2 rfl⟩

/-- Claim C10: when a typed read finds an unexpired entry whose stored value
fails the expected type assertion, the caller gets `found = false` (so the
cached repository falls through to the backing store and overwrites the bad
entry), yet the hit counter — not the miss counter — is incremented. -/
theorem C10_bad_type_counts_hit (repo : BackingStore) (c : InMemoryCache)
    (id now : Int) (item : CacheItem) (b : Banner)
    (hlook : lookupKey c.items (bannerKey id) = some item)
    (hfresh : item.IsExpired now = false)
    (hbad : ∀ b', item.value ≠ CacheValue.banner b')
    (hdb : repo.getBannerByID id = .ok b) (hbid : b.ID = id) :
    c.GetBanner id now = (none, { c with hits := c.hits + 1 }) ∧
    (CachedRepository.GetBannerByID repo c id now).1 = .ok b ∧
    (CachedRepository.GetBannerByID repo c id now).2.2 = true ∧
    (CachedRepository.GetBannerByID repo c id now).2.1.misses = c.misses ∧
    (CachedRepository.GetBannerByID repo c id now).2.1.hits = c.hits + 1 ∧
    lookupKey (CachedRepository.GetBannerByID repo c id now).2.1.items
      (bannerKey id) =
      some { value := .banner b, expiresAt := now + DefaultBannerTTL } := by
  have hget : c.get (bannerKey id) now =
      (some item.value, { c with hits := c.hits + 1 }) := by
    simp [InMemoryCache.get, hlook, hfresh]
  have hgb : c.GetBanner id now = (none, { c with hits := c.hits + 1 }) := by
    unfold InMemoryCache.GetBanner
    rw [hget]
    cases hv : item.value with
    | banner b' => exact absurd hv (hbad b')
    | clickStats s => rfl
    | bannerWithStats s => rfl
    | topBanners l => rfl
  have hrep : CachedRepository.GetBannerByID repo c id now =
      (.ok b, ({ c with hits := c.hits + 1 } : InMemoryCache).SetBanner b
        DefaultBannerTTL now, true) := by
    unfold CachedRepository.GetBannerByID
    rw [hgb, hdb]
  refine ⟨hgb, ?_, ?_, ?_, ?_, ?_⟩ <;> rw [hrep] <;>
    first
      | rfl
      | simp [InMemoryCache.SetBanner, InMemoryCache.set, hbid,
          lookupKey_insertKey_self]

/-- Witness for C10: a cache holding click statistics under the banner key
for id 1, read through the repository against the all-ok backing store. -/
theorem C10_bad_type_counts_hit_witness :
    badTypeCache.GetBanner 1 0 =
      (none, { badTypeCache with hits := badTypeCache.hits + 1 }) ∧
    (CachedRepository.GetBannerByID okRepo badTypeCache 1 0).1 =
      .ok okBanner1 ∧
    (CachedRepository.GetBannerByID okRepo badTypeCache 1 0).2.2 = true ∧
    (CachedRepository.GetBannerByID okRepo badTypeCache 1 0).2.1.misses =
      badTypeCache.misses ∧
    (CachedRepository.GetBannerByID okRepo badTypeCache 1 0).2.1.hits =
      badTypeCache.hits + 1 ∧
    lookupKey (CachedRepository.GetBannerByID okRepo badTypeCache 1 0).2.1.items
      (bannerKey 1) =
      some { value := .banner okBanner1, expiresAt := 0 + DefaultBannerTTL } :=
  C10_bad_type_counts_hit okRepo badTypeCache 1 0 badItem okBanner1 rfl rfl
    (fun _ h => CacheValue.noConfusion h) rfl rfl

end EcomCache
